import Mathlib

/-!
Shallow embedding of the G233 SPI controller model
(src/hw/ssi/g233_spi.c, src/include/hw/ssi/g233_spi.h).

Registers are 32-bit words modelled as `Nat` with explicit `% 2 ^ 32`
truncation where the C code truncates.  The three `qemu_irq` output lines
(`cs_lines[0]`, `cs_lines[1]`, `cs_lines[2]`) are modelled as state fields
`cs_line0`, `cs_line1`, `irq_line`; `qemu_set_irq` becomes an assignment to
the corresponding field.  The SSI transport (`ssi_transfer`) is an explicit
function parameter `xfer : Nat → Nat`, and every call the write path makes
to it is recorded in an output trace (the list of transmitted bytes), so
"the exchange is invoked exactly once" is the trace having length one.
-/

/-- Register offsets, from the header. -/
def SPI_CR1 : Nat := 0x00

def SPI_CR2 : Nat := 0x04

def SPI_SR : Nat := 0x08

def SPI_DR : Nat := 0x0C

def SPI_CSCTRL : Nat := 0x10

/-- SR bit masks, from the header. -/
def G233_SPI_SR_RXNE : Nat := 1 <<< 0

def G233_SPI_SR_TXE : Nat := 1 <<< 1

def G233_SPI_SR_UDR : Nat := 1 <<< 2

def G233_SPI_SR_OVR : Nat := 1 <<< 3

def G233_SPI_SR_BSY : Nat := 1 <<< 7

/-- CR1 bit masks, from the header. -/
def G233_SPI_CR1_SPE : Nat := 1 <<< 6

def G233_SPI_CR1_MSTR : Nat := 1 <<< 2

/-- CSCTRL bit masks, from the header. -/
def G233_SPI_CS0_ENABLE : Nat := 1 <<< 0

def G233_SPI_CS1_ENABLE : Nat := 1 <<< 1

def G233_SPI_CS0_ACTIVE : Nat := 1 <<< 4

def G233_SPI_CS1_ACTIVE : Nat := 1 <<< 5

/-- Embedding of `x & ~m` on machine words: clear in `x` every bit set in `m`.
Implemented as `x ^^^ (x &&& m)`, which agrees with the C expression on
every bit and is kernel-computable. -/
def andNot (x m : Nat) : Nat := x ^^^ (x &&& m)

/-- The G233 SPI controller state: the five registers, the internal
mirror flags and `rx_data`, and the three driven output lines. -/
structure G233SPIState where
  cr1 : Nat
  cr2 : Nat
  sr : Nat
  dr : Nat
  csctrl : Nat
  rx_data : Nat
  spe : Bool
  mstr : Bool
  cs0_en : Bool
  cs0_act : Bool
  cs1_en : Bool
  cs1_act : Bool
  cs_line0 : Nat
  cs_line1 : Nat
  irq_line : Bool
deriving Repr, DecidableEq

/-- Embedding of `g233_spi_update_cs`: drive each chip-select line low (0) exactly when
that line is both enabled and active, else high (1). -/
def g233_spi_update_cs (s : G233SPIState) : G233SPIState :=
  { s with
    cs_line0 := if s.cs0_en && s.cs0_act then 0 else 1
    cs_line1 := if s.cs1_en && s.cs1_act then 0 else 1 }

/-- The interrupt level computed inside `g233_spi_update_irq`: the three
`if` statements of the C code, folded into one boolean. -/
def g233_spi_irq_level (cr2 sr : Nat) : Bool :=
  (cr2 &&& (1 <<< 7) != 0 && sr &&& G233_SPI_SR_TXE != 0) ||
  (cr2 &&& (1 <<< 6) != 0 && sr &&& G233_SPI_SR_RXNE != 0) ||
  (cr2 &&& (1 <<< 5) != 0 && sr &&& (G233_SPI_SR_UDR ||| G233_SPI_SR_OVR) != 0)

/-- Embedding of `g233_spi_update_irq`: recompute the interrupt level from CR2 and SR
and drive it on `cs_lines[2]`. -/
def g233_spi_update_irq (s : G233SPIState) : G233SPIState :=
  { s with irq_line := g233_spi_irq_level s.cr2 s.sr }

/-- Embedding of `g233_spi_reset`: clear CR1, CR2, set SR to TXE only, clear `rx_data`
and all six mirror flags, then re-derive the chip-select and interrupt
outputs.  (The C function does not touch `dr` or `csctrl`.) -/
def g233_spi_reset (s : G233SPIState) : G233SPIState :=
  g233_spi_update_irq (g233_spi_update_cs
    { s with
      cr1 := 0
      cr2 := 0
      sr := G233_SPI_SR_TXE
      rx_data := 0
      spe := false
      mstr := false
      cs0_en := false
      cs0_act := false
      cs1_en := false
      cs1_act := false })

/-- Embedding of `g233_spi_do_transfer`: one 8-bit exchange on the SSI bus.  Clears TXE
and sets BSY, calls the transport, sets OVR if RXNE was still pending,
stores the received byte (truncated to 8 bits by the `uint8_t` cast),
sets RXNE and TXE, clears BSY, and re-derives the interrupt.  The returned
list records the byte handed to the transport. -/
def g233_spi_do_transfer (xfer : Nat → Nat) (s : G233SPIState) (tx : Nat) :
    G233SPIState × List Nat :=
  let s1 := { s with sr := andNot s.sr G233_SPI_SR_TXE }
  let s2 := { s1 with sr := s1.sr ||| G233_SPI_SR_BSY }
  let rx := xfer tx
  let s3 :=
    if s2.sr &&& G233_SPI_SR_RXNE != 0 then
      { s2 with sr := s2.sr ||| G233_SPI_SR_OVR }
    else s2
  let s4 := { s3 with rx_data := rx % 256 }
  let s5 := { s4 with sr := s4.sr ||| G233_SPI_SR_RXNE }
  let s6 := { s5 with sr := s5.sr ||| G233_SPI_SR_TXE }
  let s7 := { s6 with sr := andNot s6.sr G233_SPI_SR_BSY }
  (g233_spi_update_irq s7, [tx])

/-- Embedding of `g233_spi_read`: the register read handler.  Returns the value read and
the successor state (a DR read clears RXNE and OVR and re-derives the
interrupt; every other offset leaves the state unchanged; an unknown
offset reads as 0 after logging a guest error). -/
def g233_spi_read (s : G233SPIState) (addr : Nat) : Nat × G233SPIState :=
  if addr = SPI_CR1 then (s.cr1, s)
  else if addr = SPI_CR2 then (s.cr2, s)
  else if addr = SPI_SR then (s.sr, s)
  else if addr = SPI_DR then
    let val := s.rx_data
    let s1 := { s with sr := andNot s.sr G233_SPI_SR_RXNE }
    let s2 := { s1 with sr := andNot s1.sr G233_SPI_SR_OVR }
    (val, g233_spi_update_irq s2)
  else if addr = SPI_CSCTRL then (s.csctrl, s)
  else (0, s)

/-- Embedding of `g233_spi_write`: the register write handler.  `val64` is the 64-bit
bus value; the C code truncates it to `uint32_t` first.  Returns the
successor state together with the trace of bytes exchanged with the
transport during the write (empty except for a qualifying DR write). -/
def g233_spi_write (xfer : Nat → Nat) (s : G233SPIState) (addr : Nat)
    (val64 : Nat) : G233SPIState × List Nat :=
  let val := val64 % 2 ^ 32
  if addr = SPI_CR1 then
    ({ s with
       cr1 := val
       spe := val &&& G233_SPI_CR1_SPE != 0
       mstr := val &&& G233_SPI_CR1_MSTR != 0 }, [])
  else if addr = SPI_CR2 then
    (g233_spi_update_irq { s with cr2 := val }, [])
  else if addr = SPI_SR then
    let tmp := val &&& (G233_SPI_SR_OVR ||| G233_SPI_SR_UDR)
    (g233_spi_update_irq { s with sr := andNot s.sr tmp }, [])
  else if addr = SPI_DR then
    let s1 := { s with dr := val &&& 0xFF }
    let cs0_active := s1.cs0_en && s1.cs0_act
    let cs1_active := s1.cs1_en && s1.cs1_act
    if s1.spe && s1.mstr && (cs0_active ^^ cs1_active) then
      g233_spi_do_transfer xfer s1 (s1.dr % 256)
    else (s1, [])
  else if addr = SPI_CSCTRL then
    (g233_spi_update_cs
      { s with
        csctrl := val
        cs0_en := val &&& G233_SPI_CS0_ENABLE != 0
        cs1_en := val &&& G233_SPI_CS1_ENABLE != 0
        cs0_act := val &&& G233_SPI_CS0_ACTIVE != 0
        cs1_act := val &&& G233_SPI_CS1_ACTIVE != 0 }, [])
  else (s, [])

/-- The transfer-qualifying condition of the DR write path, as the C code
computes it from the mirror flags. -/
def transferGate (s : G233SPIState) : Bool :=
  s.spe && s.mstr && ((s.cs0_en && s.cs0_act) ^^ (s.cs1_en && s.cs1_act))

/-- The mirror invariant: each of the six boolean flags equals the register
bit it mirrors. -/
def mirrors (s : G233SPIState) : Prop :=
  s.spe = s.cr1.testBit 6 ∧ s.mstr = s.cr1.testBit 2 ∧
  s.cs0_en = s.csctrl.testBit 0 ∧ s.cs1_en = s.csctrl.testBit 1 ∧
  s.cs0_act = s.csctrl.testBit 4 ∧ s.cs1_act = s.csctrl.testBit 5

instance (s : G233SPIState) : Decidable (mirrors s) := by
  unfold mirrors; infer_instance

/-- A register-level operation: a bus read or a bus write. -/
inductive SpiOp where
  | rd (addr : Nat)
  | wr (addr : Nat) (val : Nat)

/-- Run a list of operations; each step carries its own transport
function, so distinct exchanges may return distinct bytes. -/
def runOps : List ((Nat → Nat) × SpiOp) → G233SPIState → G233SPIState
  | [], s => s
  | (_, SpiOp.rd a) :: rest, s => runOps rest (g233_spi_read s a).2
  | (f, SpiOp.wr a v) :: rest, s => runOps rest (g233_spi_write f s a v).1

/-! ### Concrete sample states used by witnesses and counterexamples -/

/-- The all-zero power-on state (QEMU zero-initialises the device struct),
with both chip-select lines high and the interrupt line low. -/
def spiZeroState : G233SPIState :=
  { cr1 := 0, cr2 := 0, sr := 2, dr := 0, csctrl := 0, rx_data := 0,
    spe := false, mstr := false, cs0_en := false, cs0_act := false,
    cs1_en := false, cs1_act := false, cs_line0 := 1, cs_line1 := 1,
    irq_line := false }

/-- A state ready to transfer: SPI enabled, master mode, CS0 enabled and
active (as after writing CR1 = 0x44 and CSCTRL = 0x11). -/
def spiReadyState : G233SPIState :=
  { cr1 := 0x44, cr2 := 0, sr := 2, dr := 0, csctrl := 0x11, rx_data := 0,
    spe := true, mstr := true, cs0_en := true, cs0_act := true,
    cs1_en := false, cs1_act := false, cs_line0 := 0, cs_line1 := 1,
    irq_line := false }

/-- A fully dirtied state: every register and flag away from its reset
value. -/
def spiDirtyState : G233SPIState :=
  { cr1 := 0x44, cr2 := 0xE0, sr := 0x8F, dr := 0x5A, csctrl := 0x31,
    rx_data := 0x77, spe := true, mstr := true, cs0_en := true,
    cs0_act := true, cs1_en := true, cs1_act := true, cs_line0 := 0,
    cs_line1 := 0, irq_line := true }

/-! ### Bitwise helper lemmas -/

lemma testBit_andNot (x m k : Nat) :
    (andNot x m).testBit k = (x.testBit k && !(m.testBit k)) := by
  cases hx : x.testBit k <;> cases hm : m.testBit k <;>
    simp [andNot, Nat.testBit_xor, Nat.testBit_and, hx, hm]

lemma land_shiftLeft_bne (x n : Nat) : (x &&& (1 <<< n) != 0) = x.testBit n := by
  rw [Nat.one_shiftLeft, Nat.and_two_pow]
  cases h : x.testBit n <;> simp

lemma land_udr_ovr_bne (x : Nat) :
    (x &&& ((1 <<< 2) ||| (1 <<< 3)) != 0) = (x.testBit 2 || x.testBit 3) := by
  rw [Nat.and_or_distrib_left, Nat.one_shiftLeft, Nat.one_shiftLeft,
    Nat.and_two_pow, Nat.and_two_pow]
  cases h2 : x.testBit 2 <;> cases h3 : x.testBit 3 <;> simp [h2, h3]

lemma testBit_one (k : Nat) : (1 : Nat).testBit k = decide (k = 0) := by
  cases k with
  | zero => decide
  | succ n =>
    have h : (1 : Nat) < 2 ^ (n + 1) := by
      calc (1 : Nat) < 2 ^ 1 := by omega
      _ ≤ 2 ^ (n + 1) := Nat.pow_le_pow_right (by omega) (by omega)
    simp [Nat.testBit_lt_two_pow h]

lemma testBit_one_shiftLeft (n k : Nat) :
    (1 <<< n).testBit k = decide (k = n) := by
  simp only [Nat.testBit_shiftLeft, testBit_one]
  by_cases h : k = n
  · subst h; simp
  · by_cases h2 : n ≤ k
    · have h3 : ¬(k - n = 0) := by omega
      simp [h, h2, h3]
    · simp [h, h2]

lemma testBit_mask1 (k : Nat) : Nat.testBit 1 k = decide (k = 0) := by
  have h : (1 : Nat) = 1 <<< 0 := rfl
  rw [h, testBit_one_shiftLeft]

lemma testBit_mask2 (k : Nat) : Nat.testBit 2 k = decide (k = 1) := by
  have h : (2 : Nat) = 1 <<< 1 := rfl
  rw [h, testBit_one_shiftLeft]

lemma testBit_mask8 (k : Nat) : Nat.testBit 8 k = decide (k = 3) := by
  have h : (8 : Nat) = 1 <<< 3 := rfl
  rw [h, testBit_one_shiftLeft]

lemma testBit_mask12 (k : Nat) :
    Nat.testBit 12 k = (decide (k = 2) || decide (k = 3)) := by
  have h : (12 : Nat) = 1 <<< 2 ||| 1 <<< 3 := rfl
  rw [h, Nat.testBit_or, testBit_one_shiftLeft, testBit_one_shiftLeft]

lemma testBit_mask128 (k : Nat) : Nat.testBit 128 k = decide (k = 7) := by
  have h : (128 : Nat) = 1 <<< 7 := rfl
  rw [h, testBit_one_shiftLeft]

/-! ### Branch-unfolding equations for the read and write handlers -/

lemma read_CR1_eq (s : G233SPIState) : g233_spi_read s SPI_CR1 = (s.cr1, s) := rfl

lemma read_CR2_eq (s : G233SPIState) : g233_spi_read s SPI_CR2 = (s.cr2, s) := rfl

lemma read_SR_eq (s : G233SPIState) : g233_spi_read s SPI_SR = (s.sr, s) := rfl

lemma read_DR_eq (s : G233SPIState) :
    g233_spi_read s SPI_DR =
      (s.rx_data, g233_spi_update_irq
        { s with sr := andNot (andNot s.sr G233_SPI_SR_RXNE) G233_SPI_SR_OVR }) := rfl

lemma read_CSCTRL_eq (s : G233SPIState) :
    g233_spi_read s SPI_CSCTRL = (s.csctrl, s) := rfl

lemma write_CR1_eq (xfer : Nat → Nat) (s : G233SPIState) (v : Nat) :
    g233_spi_write xfer s SPI_CR1 v =
      ({ s with
         cr1 := v % 2 ^ 32
         spe := v % 2 ^ 32 &&& G233_SPI_CR1_SPE != 0
         mstr := v % 2 ^ 32 &&& G233_SPI_CR1_MSTR != 0 }, []) := rfl

lemma write_CR2_eq (xfer : Nat → Nat) (s : G233SPIState) (v : Nat) :
    g233_spi_write xfer s SPI_CR2 v =
      (g233_spi_update_irq { s with cr2 := v % 2 ^ 32 }, []) := rfl

lemma write_SR_eq (xfer : Nat → Nat) (s : G233SPIState) (v : Nat) :
    g233_spi_write xfer s SPI_SR v =
      (g233_spi_update_irq
        { s with sr :=
            andNot s.sr (v % 2 ^ 32 &&& (G233_SPI_SR_OVR ||| G233_SPI_SR_UDR)) },
       []) := rfl

lemma write_DR_eq (xfer : Nat → Nat) (s : G233SPIState) (v : Nat) :
    g233_spi_write xfer s SPI_DR v =
      (if transferGate s then
        g233_spi_do_transfer xfer { s with dr := v % 2 ^ 32 &&& 0xFF }
          ((v % 2 ^ 32 &&& 0xFF) % 256)
       else ({ s with dr := v % 2 ^ 32 &&& 0xFF }, [])) := rfl

lemma write_CSCTRL_eq (xfer : Nat → Nat) (s : G233SPIState) (v : Nat) :
    g233_spi_write xfer s SPI_CSCTRL v =
      (g233_spi_update_cs
        { s with
          csctrl := v % 2 ^ 32
          cs0_en := v % 2 ^ 32 &&& G233_SPI_CS0_ENABLE != 0
          cs1_en := v % 2 ^ 32 &&& G233_SPI_CS1_ENABLE != 0
          cs0_act := v % 2 ^ 32 &&& G233_SPI_CS0_ACTIVE != 0
          cs1_act := v % 2 ^ 32 &&& G233_SPI_CS1_ACTIVE != 0 }, []) := rfl

/-- Behaviour of one qualifying transfer, characterised bit by bit. -/
lemma do_transfer_spec (xfer : Nat → Nat) (s : G233SPIState) (tx : Nat) :
    (g233_spi_do_transfer xfer s tx).2 = [tx] ∧
    (g233_spi_do_transfer xfer s tx).1.rx_data = xfer tx % 256 ∧
    (g233_spi_do_transfer xfer s tx).1.sr.testBit 0 = true ∧
    (g233_spi_do_transfer xfer s tx).1.sr.testBit 1 = true ∧
    (g233_spi_do_transfer xfer s tx).1.sr.testBit 7 = false ∧
    ((g233_spi_do_transfer xfer s tx).1.sr.testBit 3 =
      (s.sr.testBit 3 || s.sr.testBit 0)) ∧
    (g233_spi_do_transfer xfer s tx).1.irq_line =
      g233_spi_irq_level (g233_spi_do_transfer xfer s tx).1.cr2
        (g233_spi_do_transfer xfer s tx).1.sr := by
  have hcond : ((andNot s.sr G233_SPI_SR_TXE ||| G233_SPI_SR_BSY) &&&
      G233_SPI_SR_RXNE != 0) = s.sr.testBit 0 := by
    rw [G233_SPI_SR_RXNE, land_shiftLeft_bne]
    simp only [Nat.testBit_or, testBit_andNot, G233_SPI_SR_TXE,
      G233_SPI_SR_BSY, testBit_one_shiftLeft]
    simp
  refine ⟨rfl, rfl, ?_, ?_, ?_, ?_, rfl⟩
  all_goals simp only [g233_spi_do_transfer, g233_spi_update_irq, hcond]
  all_goals
    cases hr : s.sr.testBit 0 <;>
      simp [-Nat.testBit_zero, testBit_andNot, testBit_mask1, testBit_mask2,
        testBit_mask8, testBit_mask128, G233_SPI_SR_TXE, G233_SPI_SR_BSY,
        G233_SPI_SR_RXNE, G233_SPI_SR_OVR, testBit_one_shiftLeft, hr]

/-- A transfer never sets SR bit 2 (UDR). -/
lemma do_transfer_preserves_udr (xfer : Nat → Nat) (s : G233SPIState)
    (tx : Nat) (h : s.sr.testBit 2 = false) :
    (g233_spi_do_transfer xfer s tx).1.sr.testBit 2 = false := by
  simp only [g233_spi_do_transfer, g233_spi_update_irq]
  split_ifs <;>
    simp only [Nat.testBit_or, testBit_andNot, G233_SPI_SR_TXE,
      G233_SPI_SR_BSY, G233_SPI_SR_RXNE, G233_SPI_SR_OVR,
      testBit_one_shiftLeft] <;>
    simp [h]

/-- No register read sets SR bit 2 (UDR). -/
lemma read_preserves_udr (s : G233SPIState) (a : Nat)
    (h : s.sr.testBit 2 = false) :
    (g233_spi_read s a).2.sr.testBit 2 = false := by
  unfold g233_spi_read
  split_ifs
  · exact h
  · exact h
  · exact h
  · simp only [g233_spi_update_irq]
    simp only [testBit_andNot, G233_SPI_SR_RXNE, G233_SPI_SR_OVR,
      testBit_one_shiftLeft]
    simp [h]
  · exact h
  · exact h

/-- No register write sets SR bit 2 (UDR). -/
lemma write_preserves_udr (xfer : Nat → Nat) (s : G233SPIState) (a v : Nat)
    (h : s.sr.testBit 2 = false) :
    (g233_spi_write xfer s a v).1.sr.testBit 2 = false := by
  by_cases h1 : a = SPI_CR1
  · subst h1; rw [write_CR1_eq]; exact h
  by_cases h2 : a = SPI_CR2
  · subst h2; rw [write_CR2_eq]; exact h
  by_cases h3 : a = SPI_SR
  · subst h3
    rw [write_SR_eq]
    simp only [g233_spi_update_irq, testBit_andNot, Nat.testBit_and]
    simp [h]
  by_cases h4 : a = SPI_DR
  · subst h4
    rw [write_DR_eq]
    split
    · exact do_transfer_preserves_udr xfer _ _ h
    · exact h
  by_cases h5 : a = SPI_CSCTRL
  · subst h5; rw [write_CSCTRL_eq]; exact h
  have hdef : g233_spi_write xfer s a v = (s, []) := by
    unfold g233_spi_write
    simp [h1, h2, h3, h4, h5]
  rw [hdef]
  exact h

/-- UDR stays clear along any run of operations that starts with it
clear. -/
lemma runOps_preserves_udr (ops : List ((Nat → Nat) × SpiOp)) :
    ∀ s : G233SPIState, s.sr.testBit 2 = false →
      (runOps ops s).sr.testBit 2 = false := by
  induction ops with
  | nil => intro s h; exact h
  | cons p rest ih =>
    intro s h
    obtain ⟨f, op⟩ := p
    cases op with
    | rd a => exact ih _ (read_preserves_udr s a h)
    | wr a v => exact ih _ (write_preserves_udr f s a v h)

/-- Transfer of the mirror invariant along equalities of the registers and
flags it mentions. -/
lemma mirrors_congr {s t : G233SPIState} (h : mirrors s)
    (hcr1 : t.cr1 = s.cr1) (hcs : t.csctrl = s.csctrl) (hspe : t.spe = s.spe)
    (hmstr : t.mstr = s.mstr) (h0e : t.cs0_en = s.cs0_en)
    (h0a : t.cs0_act = s.cs0_act) (h1e : t.cs1_en = s.cs1_en)
    (h1a : t.cs1_act = s.cs1_act) : mirrors t := by
  obtain ⟨m1, m2, m3, m4, m5, m6⟩ := h
  unfold mirrors
  rw [hcr1, hcs, hspe, hmstr, h0e, h0a, h1e, h1a]
  exact ⟨m1, m2, m3, m4, m5, m6⟩

/-- A transfer never touches CR1, CSCTRL or the six mirror flags. -/
lemma do_transfer_mirror_frame (xfer : Nat → Nat) (s : G233SPIState)
    (tx : Nat) :
    (g233_spi_do_transfer xfer s tx).1.cr1 = s.cr1 ∧
    (g233_spi_do_transfer xfer s tx).1.csctrl = s.csctrl ∧
    (g233_spi_do_transfer xfer s tx).1.spe = s.spe ∧
    (g233_spi_do_transfer xfer s tx).1.mstr = s.mstr ∧
    (g233_spi_do_transfer xfer s tx).1.cs0_en = s.cs0_en ∧
    (g233_spi_do_transfer xfer s tx).1.cs0_act = s.cs0_act ∧
    (g233_spi_do_transfer xfer s tx).1.cs1_en = s.cs1_en ∧
    (g233_spi_do_transfer xfer s tx).1.cs1_act = s.cs1_act := by
  simp only [g233_spi_do_transfer, g233_spi_update_irq]
  split <;> exact ⟨rfl, rfl, rfl, rfl, rfl, rfl, rfl, rfl⟩

/-- Every register read preserves the mirror invariant. -/
lemma read_preserves_mirrors (s : G233SPIState) (a : Nat) (h : mirrors s) :
    mirrors (g233_spi_read s a).2 := by
  by_cases h1 : a = SPI_CR1
  · subst h1; rw [read_CR1_eq]; exact h
  by_cases h2 : a = SPI_CR2
  · subst h2; rw [read_CR2_eq]; exact h
  by_cases h3 : a = SPI_SR
  · subst h3; rw [read_SR_eq]; exact h
  by_cases h4 : a = SPI_DR
  · subst h4; rw [read_DR_eq]; exact h
  by_cases h5 : a = SPI_CSCTRL
  · subst h5; rw [read_CSCTRL_eq]; exact h
  have hdef : g233_spi_read s a = (0, s) := by
    unfold g233_spi_read
    simp [h1, h2, h3, h4, h5]
  rw [hdef]
  exact h

/-- Every register write preserves the mirror invariant (reset does not
preserve it). -/
lemma write_preserves_mirrors (xfer : Nat → Nat) (s : G233SPIState)
    (a v : Nat) (h : mirrors s) : mirrors (g233_spi_write xfer s a v).1 := by
  by_cases h1 : a = SPI_CR1
  · subst h1
    rw [write_CR1_eq]
    obtain ⟨-, -, m3, m4, m5, m6⟩ := h
    exact ⟨land_shiftLeft_bne (v % 2 ^ 32) 6,
      land_shiftLeft_bne (v % 2 ^ 32) 2, m3, m4, m5, m6⟩
  by_cases h2 : a = SPI_CR2
  · subst h2; rw [write_CR2_eq]; exact h
  by_cases h3 : a = SPI_SR
  · subst h3; rw [write_SR_eq]; exact h
  by_cases h4 : a = SPI_DR
  · subst h4
    rw [write_DR_eq]
    split
    · obtain ⟨f1, f2, f3, f4, f5, f6, f7, f8⟩ :=
        do_transfer_mirror_frame xfer { s with dr := v % 2 ^ 32 &&& 0xFF }
          ((v % 2 ^ 32 &&& 0xFF) % 256)
      exact mirrors_congr h f1 f2 f3 f4 f5 f6 f7 f8
    · exact h
  by_cases h5 : a = SPI_CSCTRL
  · subst h5
    rw [write_CSCTRL_eq]
    refine ⟨h.1, h.2.1, ?_, ?_, ?_, ?_⟩
    · exact land_shiftLeft_bne (v % 2 ^ 32) 0
    · exact land_shiftLeft_bne (v % 2 ^ 32) 1
    · exact land_shiftLeft_bne (v % 2 ^ 32) 4
    · exact land_shiftLeft_bne (v % 2 ^ 32) 5
  have hdef : g233_spi_write xfer s a v = (s, []) := by
    unfold g233_spi_write
    simp [h1, h2, h3, h4, h5]
  rw [hdef]
  exact h


/-- C1 (failing-input evaluation): resetting a dirtied state restores
CR1, CR2, SR, `rx_data`, the six flags and the three output lines to
their documented reset values, but leaves DR = 0x5A and CSCTRL = 0x31
unchanged, contradicting the claimed DR = 0 and CSCTRL = 0. -/
theorem C1_reset_behavior :
    g233_spi_reset spiDirtyState =
      { cr1 := 0, cr2 := 0, sr := 2, dr := 0x5A, csctrl := 0x31,
        rx_data := 0, spe := false, mstr := false, cs0_en := false,
        cs0_act := false, cs1_en := false, cs1_act := false,
        cs_line0 := 1, cs_line1 := 1, irq_line := false } ∧
    (g233_spi_reset spiDirtyState).dr ≠ 0 ∧
    (g233_spi_reset spiDirtyState).csctrl ≠ 0 := by
  decide

/-- C2: a DR write calls the transport exactly once when
`spe && mstr && ((cs0_en && cs0_act) XOR (cs1_en && cs1_act))` holds, and
otherwise makes no exchange and leaves SR unchanged. -/
theorem C2_transfer_gating (xfer : Nat → Nat) (s : G233SPIState) (v : Nat) :
    (g233_spi_write xfer s SPI_DR v).2.length =
      (if transferGate s then 1 else 0) ∧
    (transferGate s = false → (g233_spi_write xfer s SPI_DR v).1.sr = s.sr) := by
  rw [write_DR_eq]
  cases h : transferGate s
  · simp [h]
  · simp [h, g233_spi_do_transfer]

/-- Witness for C2: at the power-on state the gate is false, so a DR write
exchanges nothing and leaves SR untouched. -/
theorem C2_transfer_gating_witness :
    (g233_spi_write (fun b => b) spiZeroState SPI_DR 0x5A).2.length =
      (if transferGate spiZeroState then 1 else 0) ∧
    (g233_spi_write (fun b => b) spiZeroState SPI_DR 0x5A).1.sr =
      spiZeroState.sr :=
  ⟨(C2_transfer_gating (fun b => b) spiZeroState 0x5A).1,
   (C2_transfer_gating (fun b => b) spiZeroState 0x5A).2 (by decide)⟩

/-- C3: a qualifying DR write exchanges exactly the written low byte; on
return OVR is set iff RXNE was pending (else it keeps its prior value),
`rx_data` holds the byte the transport returned, RXNE and TXE are set,
BSY is clear, and the interrupt output is re-derived from the resulting
CR2/SR. -/
theorem C3_qualifying_transfer (xfer : Nat → Nat) (s : G233SPIState)
    (v : Nat) (h : transferGate s = true) :
    (g233_spi_write xfer s SPI_DR v).2 = [v % 256] ∧
    (g233_spi_write xfer s SPI_DR v).1.rx_data = xfer (v % 256) % 256 ∧
    (s.sr.testBit 0 = true →
      (g233_spi_write xfer s SPI_DR v).1.sr.testBit 3 = true) ∧
    (s.sr.testBit 0 = false →
      (g233_spi_write xfer s SPI_DR v).1.sr.testBit 3 = s.sr.testBit 3) ∧
    (g233_spi_write xfer s SPI_DR v).1.sr.testBit 0 = true ∧
    (g233_spi_write xfer s SPI_DR v).1.sr.testBit 1 = true ∧
    (g233_spi_write xfer s SPI_DR v).1.sr.testBit 7 = false ∧
    (g233_spi_write xfer s SPI_DR v).1.irq_line =
      g233_spi_irq_level (g233_spi_write xfer s SPI_DR v).1.cr2
        (g233_spi_write xfer s SPI_DR v).1.sr := by
  have hv : (v % 2 ^ 32 &&& 0xFF) % 256 = v % 256 := by
    have h8 : (0xFF : Nat) = 2 ^ 8 - 1 := rfl
    rw [h8, Nat.and_pow_two_sub_one_eq_mod,
      Nat.mod_mod_of_dvd _ (by norm_num : (2 : Nat) ^ 8 ∣ 2 ^ 32)]
    exact Nat.mod_mod_of_dvd v dvd_rfl
  rw [write_DR_eq, if_pos h, hv]
  obtain ⟨t1, t2, t3, t4, t5, t6, t7⟩ :=
    do_transfer_spec xfer { s with dr := v % 2 ^ 32 &&& 0xFF } (v % 256)
  refine ⟨t1, t2, ?_, ?_, t3, t4, t5, t7⟩
  · intro hr
    rw [t6]
    simp only [hr, Bool.or_true]
  · intro hr
    rw [t6]
    simp only [hr, Bool.or_false]

/-- Witness for C3: from the ready state, writing 0x15A exchanges byte
0x5A, the returned byte 0xA5 lands in `rx_data`, and OVR stays clear
because RXNE was clear. -/
theorem C3_qualifying_transfer_witness :
    (g233_spi_write (fun _ => 0xA5) spiReadyState SPI_DR 0x15A).2 =
      [0x15A % 256] ∧
    (g233_spi_write (fun _ => 0xA5) spiReadyState SPI_DR 0x15A).1.sr.testBit 3 =
      spiReadyState.sr.testBit 3 := by
  have h := C3_qualifying_transfer (fun _ => 0xA5) spiReadyState 0x15A
    (by decide)
  exact ⟨h.1, h.2.2.2.1 (by decide)⟩

/-- C4: a DR read returns `rx_data`, clears RXNE and OVR, leaves every
other SR bit and every other register, flag and output line unchanged,
and re-derives the interrupt from the new SR. -/
theorem C4_dr_read (s : G233SPIState) :
    (g233_spi_read s SPI_DR).1 = s.rx_data ∧
    (g233_spi_read s SPI_DR).2.sr.testBit 0 = false ∧
    (g233_spi_read s SPI_DR).2.sr.testBit 3 = false ∧
    (∀ k, k ≠ 0 → k ≠ 3 →
      (g233_spi_read s SPI_DR).2.sr.testBit k = s.sr.testBit k) ∧
    (g233_spi_read s SPI_DR).2.cr1 = s.cr1 ∧
    (g233_spi_read s SPI_DR).2.cr2 = s.cr2 ∧
    (g233_spi_read s SPI_DR).2.dr = s.dr ∧
    (g233_spi_read s SPI_DR).2.csctrl = s.csctrl ∧
    (g233_spi_read s SPI_DR).2.rx_data = s.rx_data ∧
    (g233_spi_read s SPI_DR).2.spe = s.spe ∧
    (g233_spi_read s SPI_DR).2.mstr = s.mstr ∧
    (g233_spi_read s SPI_DR).2.cs0_en = s.cs0_en ∧
    (g233_spi_read s SPI_DR).2.cs0_act = s.cs0_act ∧
    (g233_spi_read s SPI_DR).2.cs1_en = s.cs1_en ∧
    (g233_spi_read s SPI_DR).2.cs1_act = s.cs1_act ∧
    (g233_spi_read s SPI_DR).2.cs_line0 = s.cs_line0 ∧
    (g233_spi_read s SPI_DR).2.cs_line1 = s.cs_line1 ∧
    (g233_spi_read s SPI_DR).2.irq_line =
      g233_spi_irq_level (g233_spi_read s SPI_DR).2.cr2
        (g233_spi_read s SPI_DR).2.sr := by
  rw [read_DR_eq]
  refine ⟨rfl, ?_, ?_, ?_, rfl, rfl, rfl, rfl, rfl, rfl, rfl, rfl, rfl, rfl,
    rfl, rfl, rfl, rfl⟩
  · simp only [g233_spi_update_irq, testBit_andNot, G233_SPI_SR_RXNE,
      G233_SPI_SR_OVR, testBit_one_shiftLeft]
    simp
  · simp only [g233_spi_update_irq, testBit_andNot, G233_SPI_SR_RXNE,
      G233_SPI_SR_OVR, testBit_one_shiftLeft]
    simp
  · intro k hk0 hk3
    simp only [g233_spi_update_irq, testBit_andNot, G233_SPI_SR_RXNE,
      G233_SPI_SR_OVR, testBit_one_shiftLeft]
    simp [hk0, hk3]

/-- Witness for C4's quantified frame part, at a concrete state and bit. -/
theorem C4_dr_read_witness :
    (g233_spi_read spiDirtyState SPI_DR).1 = spiDirtyState.rx_data ∧
    (g233_spi_read spiDirtyState SPI_DR).2.sr.testBit 1 =
      spiDirtyState.sr.testBit 1 :=
  ⟨(C4_dr_read spiDirtyState).1,
   (C4_dr_read spiDirtyState).2.2.2.1 1 (by decide) (by decide)⟩

/-- C5 (failing-input evaluation): after the reachable CSCTRL = 0x11
write the mirror invariant holds, but running the reset entry point on
that state breaks it — reset clears the six flags yet leaves CSCTRL
= 0x11 with its enable/active bits still set. -/
theorem C5_reset_breaks_mirrors :
    mirrors ((g233_spi_write (fun b => b) (g233_spi_reset spiZeroState)
      SPI_CSCTRL 0x11).1) ∧
    ¬ mirrors (g233_spi_reset ((g233_spi_write (fun b => b)
      (g233_spi_reset spiZeroState) SPI_CSCTRL 0x11).1)) := by
  decide

/-- C6: a write to SR clears OVR (bit 3) and UDR (bit 2) exactly where the
written value has those bits set, leaves every other SR bit and every
other part of the state unchanged, and re-derives the interrupt. -/
theorem C6_sr_write (xfer : Nat → Nat) (s : G233SPIState) (v : Nat) :
    (g233_spi_write xfer s SPI_SR v).1.sr.testBit 2 =
      (s.sr.testBit 2 && !(v.testBit 2)) ∧
    (g233_spi_write xfer s SPI_SR v).1.sr.testBit 3 =
      (s.sr.testBit 3 && !(v.testBit 3)) ∧
    (∀ k, k ≠ 2 → k ≠ 3 →
      (g233_spi_write xfer s SPI_SR v).1.sr.testBit k = s.sr.testBit k) ∧
    (g233_spi_write xfer s SPI_SR v).1.cr1 = s.cr1 ∧
    (g233_spi_write xfer s SPI_SR v).1.cr2 = s.cr2 ∧
    (g233_spi_write xfer s SPI_SR v).1.dr = s.dr ∧
    (g233_spi_write xfer s SPI_SR v).1.csctrl = s.csctrl ∧
    (g233_spi_write xfer s SPI_SR v).1.rx_data = s.rx_data ∧
    (g233_spi_write xfer s SPI_SR v).1.spe = s.spe ∧
    (g233_spi_write xfer s SPI_SR v).1.mstr = s.mstr ∧
    (g233_spi_write xfer s SPI_SR v).1.cs0_en = s.cs0_en ∧
    (g233_spi_write xfer s SPI_SR v).1.cs0_act = s.cs0_act ∧
    (g233_spi_write xfer s SPI_SR v).1.cs1_en = s.cs1_en ∧
    (g233_spi_write xfer s SPI_SR v).1.cs1_act = s.cs1_act ∧
    (g233_spi_write xfer s SPI_SR v).1.cs_line0 = s.cs_line0 ∧
    (g233_spi_write xfer s SPI_SR v).1.cs_line1 = s.cs_line1 ∧
    (g233_spi_write xfer s SPI_SR v).2 = [] ∧
    (g233_spi_write xfer s SPI_SR v).1.irq_line =
      g233_spi_irq_level (g233_spi_write xfer s SPI_SR v).1.cr2
        (g233_spi_write xfer s SPI_SR v).1.sr := by
  rw [write_SR_eq]
  refine ⟨?_, ?_, ?_, rfl, rfl, rfl, rfl, rfl, rfl, rfl, rfl, rfl, rfl, rfl,
    rfl, rfl, rfl, rfl⟩
  · simp only [g233_spi_update_irq, testBit_andNot, Nat.testBit_and,
      Nat.testBit_or, G233_SPI_SR_UDR, G233_SPI_SR_OVR, testBit_one_shiftLeft,
      Nat.testBit_mod_two_pow]
    simp
  · simp only [g233_spi_update_irq, testBit_andNot, Nat.testBit_and,
      Nat.testBit_or, G233_SPI_SR_UDR, G233_SPI_SR_OVR, testBit_one_shiftLeft,
      Nat.testBit_mod_two_pow]
    simp
  · intro k hk2 hk3
    simp only [g233_spi_update_irq, testBit_andNot, Nat.testBit_and,
      Nat.testBit_or, G233_SPI_SR_UDR, G233_SPI_SR_OVR, testBit_one_shiftLeft,
      Nat.testBit_mod_two_pow]
    simp [hk2, hk3]

/-- Witness for C6 at a concrete state and write value 0b1100. -/
theorem C6_sr_write_witness :
    (g233_spi_write (fun b => b) spiDirtyState SPI_SR 12).1.sr.testBit 2 =
      (spiDirtyState.sr.testBit 2 && !((12 : Nat).testBit 2)) ∧
    (g233_spi_write (fun b => b) spiDirtyState SPI_SR 12).1.sr.testBit 7 =
      spiDirtyState.sr.testBit 7 :=
  ⟨(C6_sr_write (fun b => b) spiDirtyState 12).1,
   (C6_sr_write (fun b => b) spiDirtyState 12).2.2.1 7 (by decide) (by decide)⟩

/-- C7: the interrupt output level is true iff (CR2 bit7 AND SR.TXE) OR
(CR2 bit6 AND SR.RXNE) OR (CR2 bit5 AND (SR.UDR OR SR.OVR)); it is a pure
function of CR2 and SR, so recomputing it twice with unchanged inputs
yields the same level both times. -/
theorem C7_irq_aggregation (cr2 sr : Nat) (s : G233SPIState) :
    g233_spi_irq_level cr2 sr =
      ((cr2.testBit 7 && sr.testBit 1) || (cr2.testBit 6 && sr.testBit 0) ||
        (cr2.testBit 5 && (sr.testBit 2 || sr.testBit 3))) ∧
    g233_spi_update_irq (g233_spi_update_irq s) = g233_spi_update_irq s := by
  constructor
  · unfold g233_spi_irq_level G233_SPI_SR_TXE G233_SPI_SR_RXNE G233_SPI_SR_UDR
      G233_SPI_SR_OVR
    rw [land_shiftLeft_bne, land_shiftLeft_bne, land_shiftLeft_bne,
      land_shiftLeft_bne, land_shiftLeft_bne, land_udr_ovr_bne]
  · rfl

/-- C8: each chip-select line is driven to 0 exactly when that line is both
enabled and active, else to 1; after a CSCTRL write both lines are
recomputed from the written value's enable/active bits. -/
theorem C8_chip_select (s : G233SPIState) (xfer : Nat → Nat) (v : Nat) :
    ((g233_spi_update_cs s).cs_line0 = if s.cs0_en && s.cs0_act then 0 else 1) ∧
    ((g233_spi_update_cs s).cs_line1 = if s.cs1_en && s.cs1_act then 0 else 1) ∧
    ((g233_spi_write xfer s SPI_CSCTRL v).1.cs_line0 =
      if v.testBit 0 && v.testBit 4 then 0 else 1) ∧
    ((g233_spi_write xfer s SPI_CSCTRL v).1.cs_line1 =
      if v.testBit 1 && v.testBit 5 then 0 else 1) := by
  refine ⟨rfl, rfl, ?_, ?_⟩ <;>
  · rw [write_CSCTRL_eq]
    simp only [g233_spi_update_cs, G233_SPI_CS0_ENABLE, G233_SPI_CS1_ENABLE,
      G233_SPI_CS0_ACTIVE, G233_SPI_CS1_ACTIVE]
    simp only [land_shiftLeft_bne, Nat.testBit_mod_two_pow]
    norm_num

/-- C9: starting from the reset state, no sequence of register reads and
writes ever sets the UDR bit of SR. -/
theorem C9_udr_never_set (s : G233SPIState)
    (ops : List ((Nat → Nat) × SpiOp)) :
    (runOps ops (g233_spi_reset s)).sr.testBit 2 = false := by
  apply runOps_preserves_udr
  simp only [g233_spi_reset, g233_spi_update_irq, g233_spi_update_cs]
  decide

/-- C10: a read or write at any offset outside the five defined registers
returns 0 or is a no-op respectively, leaving the whole state unchanged. -/
theorem C10_unknown_offset (s : G233SPIState) (xfer : Nat → Nat)
    (addr v : Nat) (h : addr ≠ SPI_CR1 ∧ addr ≠ SPI_CR2 ∧ addr ≠ SPI_SR ∧
      addr ≠ SPI_DR ∧ addr ≠ SPI_CSCTRL) :
    g233_spi_read s addr = (0, s) ∧ g233_spi_write xfer s addr v = (s, []) := by
  obtain ⟨h1, h2, h3, h4, h5⟩ := h
  unfold g233_spi_read g233_spi_write
  simp [h1, h2, h3, h4, h5]

/-- Witness for C10 at the concrete unmapped offset 0x14. -/
theorem C10_unknown_offset_witness :
    g233_spi_read spiDirtyState 0x14 = (0, spiDirtyState) ∧
    g233_spi_write (fun b => b) spiDirtyState 0x14 0xAB = (spiDirtyState, []) :=
  C10_unknown_offset spiDirtyState (fun b => b) 0x14 0xAB
    ⟨by decide, by decide, by decide, by decide, by decide⟩
